import Mathlib

/-!
Shallow embedding of the climate-control engine of the
"Automated Portable Flower Storage" ESP32 sketch (src/code.ino).

Modelling conventions:
* C `float` sensor values are embedded as `ℚ`.  The sketch performs no
  arithmetic on readings other than comparisons against `threshold ± 0.5`
  (exact in IEEE float for the integer thresholds 0..100), so the order
  structure is faithful.
* A possibly-NaN DHT sample is embedded as `Option ℚ` per channel:
  `none` models NaN, and `isnan` becomes a match on `none`.
* `millis()` values are `unsigned long` (32-bit on ESP32); the C
  subtraction `currentTime - waterPumpCycleStartTime` is embedded as
  `usub32`, subtraction modulo 2^32.
* `digitalWrite(pin, HIGH/LOW)` is embedded as a `Bool` field per pin.
* Global C++ `int`/`String` state variables become fields of `SysState`.
  Uninitialised file-scope ints are zero-initialised in C++, and output
  pins read LOW after `pinMode(..., OUTPUT)` in `setup()`, giving
  `initialState`.
-/

namespace FlowerStorage

/-- `struct SensorData { float temperature; float humidity; unsigned long timestamp; }`
(src/code.ino lines 49-53). -/
structure SensorData where
  temperature : ℚ
  humidity : ℚ
  timestamp : ℕ
deriving DecidableEq, Repr

/-- The values of the global `String tecState` actually assigned by the
sketch: "Cooling", "Heating", "Inactive" (src/code.ino line 35). -/
inductive TecState where
  | Cooling
  | Heating
  | Inactive
deriving DecidableEq, Repr

/-- The values of the global `String waterPumpState`: "On", "Off"
(src/code.ino line 36). -/
inductive PumpMode where
  | On
  | Off
deriving DecidableEq, Repr

/-- One raw DHT sample as returned by `dht.readTemperature()` /
`dht.readHumidity()`; `none` models a NaN float. -/
structure DhtSample where
  temperature : Option ℚ
  humidity : Option ℚ
deriving DecidableEq, Repr

/-- `const float HYSTERESIS = 1.0` (src/code.ino line 143). -/
def HYSTERESIS : ℚ := 1

/-- `const unsigned long waterPumpOnDuration = 2000` (line 58). -/
def waterPumpOnDuration : ℕ := 2000

/-- `const unsigned long waterPumpOffDuration = 20000` (line 59). -/
def waterPumpOffDuration : ℕ := 20000

/-- `const unsigned long waterPumpCyclePeriod = waterPumpOnDuration + waterPumpOffDuration`
(line 60). -/
def waterPumpCyclePeriod : ℕ := waterPumpOnDuration + waterPumpOffDuration

/-- 32-bit unsigned subtraction `a - b` as performed on `unsigned long`
operands by `currentTime - waterPumpCycleStartTime`. -/
def usub32 (a b : ℕ) : ℕ :=
  (a + 2 ^ 32 - b % 2 ^ 32) % 2 ^ 32

/-- The Arduino `map` builtin called by `readThresholds`:
`(x - in_min) * (out_max - out_min) / (in_max - in_min) + out_min`
over C `long`.  At both call sites every quantity is non-negative
(`analogRead` yields 0..4095), so truncating `long` division agrees with
`ℕ` division. -/
def arduinoMap (x inMin inMax outMin outMax : ℕ) : ℕ :=
  (x - inMin) * (outMax - outMin) / (inMax - inMin) + outMin

/-- The engine-relevant global mutable state of the sketch: the state
`String`s, the history vector, the pump cycle anchor, the thresholds,
and the output pin levels (`true` = HIGH). -/
structure SysState where
  tecState : TecState
  waterPumpState : PumpMode
  sensorReadings : List SensorData
  waterPumpCycleStartTime : ℕ
  temperatureThreshold : ℕ
  humidityThreshold : ℕ
  coolerIn1 : Bool
  coolerIn2 : Bool
  fanIn1 : Bool
  fanIn2 : Bool
  pumpIn1 : Bool
  pumpIn2 : Bool
deriving DecidableEq, Repr

/-- State after `setup()`: `tecState = "Inactive"`, `waterPumpState = "Off"`,
empty history, `waterPumpCycleStartTime = 0`, zero-initialised thresholds,
all output pins LOW. -/
def initialState : SysState :=
  { tecState := TecState.Inactive
    waterPumpState := PumpMode.Off
    sensorReadings := []
    waterPumpCycleStartTime := 0
    temperatureThreshold := 0
    humidityThreshold := 0
    coolerIn1 := false
    coolerIn2 := false
    fanIn1 := false
    fanIn2 := false
    pumpIn1 := false
    pumpIn2 := false }

/-- `readThresholds()` (src/code.ino lines 77-81), with the two
`analogRead` results supplied as inputs. -/
def readThresholds (s : SysState) (rawTemp rawHum : ℕ) : SysState :=
  { s with
    temperatureThreshold := arduinoMap rawTemp 0 4095 0 100
    humidityThreshold := arduinoMap rawHum 0 4095 0 100 }

/-- The buffer update performed by `storeSensorData()`
(src/code.ino lines 86-98): if neither channel is NaN, erase the front
when `size() >= 100`, then `push_back` the new entry; otherwise leave
the vector untouched. -/
def storeReading (buf : List SensorData) (sample : DhtSample) (ts : ℕ) :
    List SensorData :=
  match sample.temperature, sample.humidity with
  | some t, some h =>
      (if buf.length ≥ 100 then buf.tail else buf) ++ [⟨t, h, ts⟩]
  | _, _ => buf

/-- `storeSensorData()` on the whole state, with the DHT sample and the
`time(nullptr)` value supplied as inputs. -/
def storeSensorData (s : SysState) (sample : DhtSample) (ts : ℕ) : SysState :=
  { s with sensorReadings := storeReading s.sensorReadings sample ts }

/-- The cooler-and-fan section of `controlCoolerAndWaterPump()`
(src/code.ino lines 145-176), acting on the latest reading. -/
def thermalControl (s : SysState) (latestData : SensorData) : SysState :=
  if latestData.temperature > (s.temperatureThreshold : ℚ) + HYSTERESIS / 2 then
    { s with coolerIn1 := true, coolerIn2 := false, tecState := TecState.Cooling
             fanIn1 := true, fanIn2 := false }
  else if latestData.temperature < (s.temperatureThreshold : ℚ) - HYSTERESIS / 2 then
    { s with coolerIn1 := false, coolerIn2 := true, tecState := TecState.Heating
             fanIn1 := true, fanIn2 := false }
  else
    { s with coolerIn1 := false, coolerIn2 := false, tecState := TecState.Inactive
             fanIn1 := false, fanIn2 := false }

/-- The water-pump section of `controlCoolerAndWaterPump()`
(src/code.ino lines 178-206), with `millis()` supplied as `currentTime`. -/
def pumpControl (s : SysState) (latestData : SensorData) (currentTime : ℕ) :
    SysState :=
  if latestData.humidity < (s.humidityThreshold : ℚ) then
    let s :=
      if usub32 currentTime s.waterPumpCycleStartTime ≥ waterPumpCyclePeriod then
        { s with waterPumpCycleStartTime := currentTime }
      else s
    if usub32 currentTime s.waterPumpCycleStartTime < waterPumpOnDuration then
      { s with pumpIn1 := true, pumpIn2 := false, waterPumpState := PumpMode.On }
    else
      { s with pumpIn1 := false, pumpIn2 := false, waterPumpState := PumpMode.Off }
  else
    { s with pumpIn1 := false, pumpIn2 := false, waterPumpState := PumpMode.Off
             waterPumpCycleStartTime := currentTime }

/-- `controlCoolerAndWaterPump()` (src/code.ino lines 139-207): early
return on an empty history, otherwise the thermal section followed by
the pump section, both against `sensorReadings.back()`. -/
def controlCoolerAndWaterPump (s : SysState) (currentTime : ℕ) : SysState :=
  match s.sensorReadings.getLast? with
  | none => s
  | some latestData => pumpControl (thermalControl s latestData) latestData currentTime

/-- The per-tick inputs consumed by one iteration of `loop()`:
two `analogRead` samples, one DHT sample, `time(nullptr)`, `millis()`. -/
structure TickInput where
  rawTemp : ℕ
  rawHum : ℕ
  sample : DhtSample
  timestamp : ℕ
  now : ℕ
deriving DecidableEq, Repr

/-- The engine-relevant part of one `loop()` iteration
(src/code.ino lines 504-532): `readThresholds(); storeSensorData();
controlCoolerAndWaterPump();` in that order.  The web-server, button
and LCD code touches none of the engine state modelled here. -/
def tick (s : SysState) (i : TickInput) : SysState :=
  controlCoolerAndWaterPump
    (storeSensorData (readThresholds s i.rawTemp i.rawHum) i.sample i.timestamp)
    i.now

/-- A whole run: `setup()` followed by one `loop()` iteration per input. -/
def run (inputs : List TickInput) : SysState :=
  inputs.foldl tick initialState

/-- Modelled from the spec: the spec's testable property for the
threshold mapper reads "mapped threshold = round(r / 4095 × 100)",
i.e. rounding to nearest: `round(100 r / 4095) = ⌊(200 r + 4095) / 8190⌋`. -/
def specRoundedThreshold (r : ℕ) : ℕ :=
  (200 * r + 4095) / 8190

/-- A state whose history holds a single accepted reading, with given
thresholds: used to instantiate the theorems at concrete inputs. -/
def sampleState (t h : ℚ) (tempTh humTh : ℕ) : SysState :=
  { initialState with
    sensorReadings := [⟨t, h, 0⟩]
    temperatureThreshold := tempTh
    humidityThreshold := humTh }

/-! ### Helper lemmas -/

theorem usub32_self (a : ℕ) : usub32 a a = 0 := by
  unfold usub32
  have h1 : a % 2 ^ 32 ≤ a := Nat.mod_le a (2 ^ 32)
  have h2 : a % 2 ^ 32 < 2 ^ 32 := Nat.mod_lt a (by norm_num)
  have h3 : a + 2 ^ 32 - a % 2 ^ 32 = (a - a % 2 ^ 32) + 2 ^ 32 := by omega
  have h4 : a - a % 2 ^ 32 = 2 ^ 32 * (a / 2 ^ 32) := by
    have := Nat.div_add_mod a (2 ^ 32)
    omega
  rw [h3, Nat.add_mod_right, h4, Nat.mul_mod_right]

theorem usub32_eq_sub {a b : ℕ} (hba : b ≤ a) (ha : a < 2 ^ 32) :
    usub32 a b = a - b := by
  unfold usub32
  rw [Nat.mod_eq_of_lt (lt_of_le_of_lt hba ha)]
  have : a + 2 ^ 32 - b = (a - b) + 2 ^ 32 := by omega
  rw [this, Nat.add_mod_right, Nat.mod_eq_of_lt (by omega)]

theorem pumpControl_tecState (s : SysState) (d : SensorData) (n : ℕ) :
    (pumpControl s d n).tecState = s.tecState := by
  simp only [pumpControl]
  split_ifs <;> rfl

theorem pumpControl_coolerIn1 (s : SysState) (d : SensorData) (n : ℕ) :
    (pumpControl s d n).coolerIn1 = s.coolerIn1 := by
  simp only [pumpControl]
  split_ifs <;> rfl

theorem pumpControl_coolerIn2 (s : SysState) (d : SensorData) (n : ℕ) :
    (pumpControl s d n).coolerIn2 = s.coolerIn2 := by
  simp only [pumpControl]
  split_ifs <;> rfl

theorem pumpControl_fanIn1 (s : SysState) (d : SensorData) (n : ℕ) :
    (pumpControl s d n).fanIn1 = s.fanIn1 := by
  simp only [pumpControl]
  split_ifs <;> rfl

theorem pumpControl_fanIn2 (s : SysState) (d : SensorData) (n : ℕ) :
    (pumpControl s d n).fanIn2 = s.fanIn2 := by
  simp only [pumpControl]
  split_ifs <;> rfl

theorem pumpControl_sensorReadings (s : SysState) (d : SensorData) (n : ℕ) :
    (pumpControl s d n).sensorReadings = s.sensorReadings := by
  simp only [pumpControl]
  split_ifs <;> rfl

theorem thermalControl_pump_frame (s : SysState) (d : SensorData) :
    (thermalControl s d).waterPumpState = s.waterPumpState ∧
    (thermalControl s d).waterPumpCycleStartTime = s.waterPumpCycleStartTime ∧
    (thermalControl s d).pumpIn1 = s.pumpIn1 ∧
    (thermalControl s d).pumpIn2 = s.pumpIn2 ∧
    (thermalControl s d).sensorReadings = s.sensorReadings ∧
    (thermalControl s d).humidityThreshold = s.humidityThreshold ∧
    (thermalControl s d).temperatureThreshold = s.temperatureThreshold := by
  simp only [thermalControl]
  split_ifs <;> exact ⟨rfl, rfl, rfl, rfl, rfl, rfl, rfl⟩

theorem control_empty (s : SysState) (n : ℕ)
    (h : s.sensorReadings = []) : controlCoolerAndWaterPump s n = s := by
  simp [controlCoolerAndWaterPump, h]

theorem thermalControl_cooling (s : SysState) (d : SensorData)
    (hc : d.temperature > (s.temperatureThreshold : ℚ) + HYSTERESIS / 2) :
    thermalControl s d =
      { s with coolerIn1 := true, coolerIn2 := false, tecState := TecState.Cooling
               fanIn1 := true, fanIn2 := false } := by
  simp only [thermalControl]
  rw [if_pos hc]

theorem thermalControl_heating (s : SysState) (d : SensorData)
    (hnc : ¬ d.temperature > (s.temperatureThreshold : ℚ) + HYSTERESIS / 2)
    (hh : d.temperature < (s.temperatureThreshold : ℚ) - HYSTERESIS / 2) :
    thermalControl s d =
      { s with coolerIn1 := false, coolerIn2 := true, tecState := TecState.Heating
               fanIn1 := true, fanIn2 := false } := by
  simp only [thermalControl]
  rw [if_neg hnc, if_pos hh]

theorem thermalControl_inactive (s : SysState) (d : SensorData)
    (hnc : ¬ d.temperature > (s.temperatureThreshold : ℚ) + HYSTERESIS / 2)
    (hnh : ¬ d.temperature < (s.temperatureThreshold : ℚ) - HYSTERESIS / 2) :
    thermalControl s d =
      { s with coolerIn1 := false, coolerIn2 := false, tecState := TecState.Inactive
               fanIn1 := false, fanIn2 := false } := by
  simp only [thermalControl]
  rw [if_neg hnc, if_neg hnh]

theorem storeSensorData_invalid (s : SysState) (sample : DhtSample) (ts : ℕ)
    (h : sample.temperature = none ∨ sample.humidity = none) :
    storeSensorData s sample ts = s := by
  obtain ⟨t, hu⟩ := sample
  cases t <;> cases hu
  · rfl
  · rfl
  · rfl
  · simp at h

theorem readThresholds_frame (s : SysState) (rt rh : ℕ) :
    (readThresholds s rt rh).sensorReadings = s.sensorReadings ∧
    (readThresholds s rt rh).waterPumpState = s.waterPumpState ∧
    (readThresholds s rt rh).pumpIn1 = s.pumpIn1 ∧
    (readThresholds s rt rh).pumpIn2 = s.pumpIn2 ∧
    (readThresholds s rt rh).waterPumpCycleStartTime = s.waterPumpCycleStartTime ∧
    (readThresholds s rt rh).tecState = s.tecState := by
  exact ⟨rfl, rfl, rfl, rfl, rfl, rfl⟩

theorem tick_invalid_empty (s : SysState) (i : TickInput)
    (hi : i.sample.temperature = none ∨ i.sample.humidity = none)
    (hs : s.sensorReadings = []) :
    tick s i = readThresholds s i.rawTemp i.rawHum := by
  unfold tick
  rw [storeSensorData_invalid _ _ _ hi]
  exact control_empty _ _ hs

theorem foldl_tick_all_invalid (inputs : List TickInput) (s : SysState)
    (hinv : ∀ i ∈ inputs, i.sample.temperature = none ∨ i.sample.humidity = none)
    (hs : s.sensorReadings = []) :
    (inputs.foldl tick s).sensorReadings = [] ∧
    (inputs.foldl tick s).waterPumpState = s.waterPumpState ∧
    (inputs.foldl tick s).pumpIn1 = s.pumpIn1 ∧
    (inputs.foldl tick s).pumpIn2 = s.pumpIn2 ∧
    (inputs.foldl tick s).waterPumpCycleStartTime = s.waterPumpCycleStartTime := by
  induction inputs generalizing s with
  | nil => exact ⟨hs, rfl, rfl, rfl, rfl⟩
  | cons i rest ih =>
      have hi := hinv i (List.mem_cons_self i rest)
      have hrest : ∀ j ∈ rest, j.sample.temperature = none ∨ j.sample.humidity = none :=
        fun j hj => hinv j (List.mem_cons_of_mem i hj)
      have hstep : tick s i = readThresholds s i.rawTemp i.rawHum :=
        tick_invalid_empty s i hi hs
      have := ih (readThresholds s i.rawTemp i.rawHum) hrest hs
      simpa [List.foldl_cons, hstep] using this

theorem pumpControl_thresholds (s : SysState) (d : SensorData) (n : ℕ) :
    (pumpControl s d n).temperatureThreshold = s.temperatureThreshold ∧
    (pumpControl s d n).humidityThreshold = s.humidityThreshold := by
  simp only [pumpControl]
  split_ifs <;> exact ⟨rfl, rfl⟩

theorem control_getLast_none (s : SysState) (n : ℕ)
    (h : s.sensorReadings.getLast? = none) :
    controlCoolerAndWaterPump s n = s := by
  unfold controlCoolerAndWaterPump
  rw [h]

theorem control_getLast_some (s : SysState) (n : ℕ) (d : SensorData)
    (h : s.sensorReadings.getLast? = some d) :
    controlCoolerAndWaterPump s n = pumpControl (thermalControl s d) d n := by
  unfold controlCoolerAndWaterPump
  rw [h]

theorem control_sensorReadings (s : SysState) (n : ℕ) :
    (controlCoolerAndWaterPump s n).sensorReadings = s.sensorReadings := by
  cases hg : s.sensorReadings.getLast? with
  | none => rw [control_getLast_none s n hg]
  | some d =>
      rw [control_getLast_some s n d hg, pumpControl_sensorReadings,
        (thermalControl_pump_frame s d).2.2.2.2.1]

theorem control_thresholds (s : SysState) (n : ℕ) :
    (controlCoolerAndWaterPump s n).temperatureThreshold = s.temperatureThreshold ∧
    (controlCoolerAndWaterPump s n).humidityThreshold = s.humidityThreshold := by
  cases hg : s.sensorReadings.getLast? with
  | none => rw [control_getLast_none s n hg]; exact ⟨rfl, rfl⟩
  | some d =>
      rw [control_getLast_some s n d hg]
      rw [(pumpControl_thresholds _ d n).1, (pumpControl_thresholds _ d n).2]
      exact ⟨(thermalControl_pump_frame s d).2.2.2.2.2.2,
        (thermalControl_pump_frame s d).2.2.2.2.2.1⟩

theorem tick_sensorReadings (s : SysState) (i : TickInput) :
    (tick s i).sensorReadings
      = storeReading s.sensorReadings i.sample i.timestamp := by
  unfold tick
  rw [control_sensorReadings]
  rfl

theorem storeReading_valid_getLast (buf : List SensorData) (t h : ℚ) (ts : ℕ) :
    (storeReading buf ⟨some t, some h⟩ ts).getLast? = some ⟨t, h, ts⟩ := by
  simp [storeReading]

theorem storeReading_length_le (buf : List SensorData) (sample : DhtSample)
    (ts : ℕ) (h : buf.length ≤ 100) :
    (storeReading buf sample ts).length ≤ 100 := by
  obtain ⟨t, hu⟩ := sample
  cases t <;> cases hu <;> simp only [storeReading] <;> try exact h
  split_ifs with hlen
  · have hne : buf ≠ [] := by
      intro hnil
      rw [hnil] at hlen
      simp at hlen
    simp [List.length_tail]
    omega
  · simp
    omega

theorem storeReading_length_of_full (buf : List SensorData) (t h : ℚ) (ts : ℕ)
    (hfull : 100 ≤ buf.length) :
    (storeReading buf ⟨some t, some h⟩ ts).length = buf.length := by
  simp only [storeReading]
  rw [if_pos hfull]
  simp [List.length_tail]
  omega

theorem pumpControl_satisfied (s : SysState) (d : SensorData) (n : ℕ)
    (hd : ¬ d.humidity < (s.humidityThreshold : ℚ)) :
    pumpControl s d n =
      { s with pumpIn1 := false, pumpIn2 := false, waterPumpState := PumpMode.Off
               waterPumpCycleStartTime := n } := by
  simp only [pumpControl]
  rw [if_neg hd]

theorem pumpControl_deficit (s : SysState) (d : SensorData) (n : ℕ)
    (hd : d.humidity < (s.humidityThreshold : ℚ)) :
    pumpControl s d n =
      if usub32 n s.waterPumpCycleStartTime ≥ waterPumpCyclePeriod then
        { s with waterPumpCycleStartTime := n, pumpIn1 := true, pumpIn2 := false
                 waterPumpState := PumpMode.On }
      else if usub32 n s.waterPumpCycleStartTime < waterPumpOnDuration then
        { s with pumpIn1 := true, pumpIn2 := false, waterPumpState := PumpMode.On }
      else
        { s with pumpIn1 := false, pumpIn2 := false, waterPumpState := PumpMode.Off } := by
  simp only [pumpControl]
  rw [if_pos hd]
  by_cases hc : usub32 n s.waterPumpCycleStartTime ≥ waterPumpCyclePeriod
  · rw [if_pos hc, if_pos hc]
    dsimp only
    rw [usub32_self]
    rw [if_pos (by norm_num [waterPumpOnDuration])]
  · rw [if_neg hc, if_neg hc]

theorem thermalControl_mutex (s : SysState) (d : SensorData) :
    (thermalControl s d).coolerIn1 = false ∨ (thermalControl s d).coolerIn2 = false := by
  simp only [thermalControl]
  split_ifs <;> simp

theorem storeReading_invalid (buf : List SensorData) (sample : DhtSample) (ts : ℕ)
    (h : sample.temperature = none ∨ sample.humidity = none) :
    storeReading buf sample ts = buf := by
  obtain ⟨t, hu⟩ := sample
  cases t <;> cases hu
  · rfl
  · rfl
  · rfl
  · simp at h

theorem storeReading_getLast_fields (buf : List SensorData) (sample : DhtSample)
    (ts : ℕ) (t hm : ℚ) (ht : sample.temperature = some t)
    (hh : sample.humidity = some hm) :
    (storeReading buf sample ts).getLast? = some ⟨t, hm, ts⟩ := by
  obtain ⟨a, b⟩ := sample
  simp only at ht hh
  subst ht
  subst hh
  exact storeReading_valid_getLast buf t hm ts

theorem storeReading_length_full_fields (buf : List SensorData) (sample : DhtSample)
    (ts : ℕ) (t hm : ℚ) (ht : sample.temperature = some t)
    (hh : sample.humidity = some hm) (hfull : 100 ≤ buf.length) :
    (storeReading buf sample ts).length = buf.length := by
  obtain ⟨a, b⟩ := sample
  simp only at ht hh
  subst ht
  subst hh
  exact storeReading_length_of_full buf t hm ts hfull

theorem thermalControl_tecState (s : SysState) (d : SensorData) :
    (thermalControl s d).tecState =
      (if d.temperature > (s.temperatureThreshold : ℚ) + HYSTERESIS / 2
       then TecState.Cooling
       else if d.temperature < (s.temperatureThreshold : ℚ) - HYSTERESIS / 2
       then TecState.Heating
       else TecState.Inactive) := by
  simp only [thermalControl]
  split_ifs <;> rfl

theorem tick_getLast_none (u : SysState) (i : TickInput)
    (h : (storeReading u.sensorReadings i.sample i.timestamp).getLast? = none) :
    (tick u i).tecState = u.tecState ∧
    (tick u i).waterPumpState = u.waterPumpState ∧
    (tick u i).waterPumpCycleStartTime = u.waterPumpCycleStartTime := by
  unfold tick
  have h2 : (storeSensorData (readThresholds u i.rawTemp i.rawHum) i.sample
      i.timestamp).sensorReadings.getLast? = none := h
  rw [control_getLast_none _ _ h2]
  exact ⟨rfl, rfl, rfl⟩

theorem tick_tecState_some (u : SysState) (i : TickInput) (d : SensorData)
    (h : (storeReading u.sensorReadings i.sample i.timestamp).getLast? = some d) :
    (tick u i).tecState =
      (if d.temperature > (arduinoMap i.rawTemp 0 4095 0 100 : ℚ) + HYSTERESIS / 2
       then TecState.Cooling
       else if d.temperature < (arduinoMap i.rawTemp 0 4095 0 100 : ℚ) - HYSTERESIS / 2
       then TecState.Heating
       else TecState.Inactive) := by
  unfold tick
  have h2 : (storeSensorData (readThresholds u i.rawTemp i.rawHum) i.sample
      i.timestamp).sensorReadings.getLast? = some d := h
  rw [control_getLast_some _ _ d h2, pumpControl_tecState, thermalControl_tecState]
  rfl

theorem tick_pump_some (u : SysState) (i : TickInput) (d : SensorData)
    (h : (storeReading u.sensorReadings i.sample i.timestamp).getLast? = some d) :
    (tick u i).waterPumpCycleStartTime =
      (if d.humidity < (arduinoMap i.rawHum 0 4095 0 100 : ℚ) then
        (if usub32 i.now u.waterPumpCycleStartTime ≥ waterPumpCyclePeriod
         then i.now else u.waterPumpCycleStartTime)
       else i.now) ∧
    (tick u i).waterPumpState =
      (if d.humidity < (arduinoMap i.rawHum 0 4095 0 100 : ℚ) then
        (if usub32 i.now
            (if usub32 i.now u.waterPumpCycleStartTime ≥ waterPumpCyclePeriod
             then i.now else u.waterPumpCycleStartTime) < waterPumpOnDuration
         then PumpMode.On else PumpMode.Off)
       else PumpMode.Off) := by
  unfold tick
  have h2 : (storeSensorData (readThresholds u i.rawTemp i.rawHum) i.sample
      i.timestamp).sensorReadings.getLast? = some d := h
  rw [control_getLast_some _ _ d h2]
  set U := storeSensorData (readThresholds u i.rawTemp i.rawHum) i.sample i.timestamp
    with hUdef
  have hfr := thermalControl_pump_frame U d
  have hUstart : U.waterPumpCycleStartTime = u.waterPumpCycleStartTime := rfl
  have hUhum : U.humidityThreshold = arduinoMap i.rawHum 0 4095 0 100 := rfl
  by_cases hlt : d.humidity < (arduinoMap i.rawHum 0 4095 0 100 : ℚ)
  · have hlt2 : d.humidity < ((thermalControl U d).humidityThreshold : ℚ) := by
      rw [hfr.2.2.2.2.2.1, hUhum]
      exact hlt
    rw [pumpControl_deficit _ d _ hlt2, hfr.2.1, hUstart, if_pos hlt, if_pos hlt]
    by_cases hc : usub32 i.now u.waterPumpCycleStartTime ≥ waterPumpCyclePeriod
    · rw [if_pos hc, if_pos hc]
      refine ⟨rfl, ?_⟩
      rw [usub32_self,
        if_pos (show (0 : ℕ) < waterPumpOnDuration by norm_num [waterPumpOnDuration])]
    · rw [if_neg hc, if_neg hc]
      by_cases hc2 : usub32 i.now u.waterPumpCycleStartTime < waterPumpOnDuration
      · rw [if_pos hc2, if_pos hc2]
        exact ⟨rfl, rfl⟩
      · rw [if_neg hc2, if_neg hc2]
        exact ⟨rfl, rfl⟩
  · have hlt2 : ¬ d.humidity < ((thermalControl U d).humidityThreshold : ℚ) := by
      rw [hfr.2.2.2.2.2.1, hUhum]
      exact hlt
    rw [pumpControl_satisfied _ d _ hlt2, if_neg hlt, if_neg hlt]
    exact ⟨rfl, rfl⟩

theorem pump_formula_stable (a n : ℕ) (c : Prop) [Decidable c] :
    ((if c then
        (if usub32 n (if c then (if usub32 n a ≥ waterPumpCyclePeriod then n else a) else n)
            ≥ waterPumpCyclePeriod then n
         else (if c then (if usub32 n a ≥ waterPumpCyclePeriod then n else a) else n))
      else n)
      = (if c then (if usub32 n a ≥ waterPumpCyclePeriod then n else a) else n)) ∧
    ((if c then
        (if usub32 n
            (if usub32 n (if c then (if usub32 n a ≥ waterPumpCyclePeriod then n else a) else n)
                ≥ waterPumpCyclePeriod then n
             else (if c then (if usub32 n a ≥ waterPumpCyclePeriod then n else a) else n))
            < waterPumpOnDuration
         then PumpMode.On else PumpMode.Off)
      else PumpMode.Off)
      = (if c then
           (if usub32 n (if usub32 n a ≥ waterPumpCyclePeriod then n else a)
               < waterPumpOnDuration
            then PumpMode.On else PumpMode.Off)
         else PumpMode.Off)) := by
  by_cases h : c
  · simp only [if_pos h]
    by_cases hc : usub32 n a ≥ waterPumpCyclePeriod
    · simp only [if_pos hc, usub32_self, ite_self]
      exact ⟨trivial, trivial⟩
    · simp only [if_neg hc]
      exact ⟨trivial, trivial⟩
  · simp only [if_neg h]
    exact ⟨trivial, trivial⟩

theorem tick_twice_stable_some (s : SysState) (i : TickInput) (d : SensorData)
    (h1 : (storeReading s.sensorReadings i.sample i.timestamp).getLast? = some d)
    (h2 : (storeReading (tick s i).sensorReadings i.sample i.timestamp).getLast?
      = some d) :
    (tick (tick s i) i).tecState = (tick s i).tecState ∧
    (tick (tick s i) i).waterPumpState = (tick s i).waterPumpState ∧
    (tick (tick s i) i).waterPumpCycleStartTime = (tick s i).waterPumpCycleStartTime := by
  have ht1 := tick_tecState_some s i d h1
  have ht2 := tick_tecState_some (tick s i) i d h2
  have hp1 := tick_pump_some s i d h1
  have hp2 := tick_pump_some (tick s i) i d h2
  refine ⟨by rw [ht1, ht2], ?_, ?_⟩
  · rw [hp2.2, hp1.2, hp1.1]
    exact (pump_formula_stable s.waterPumpCycleStartTime i.now _).2
  · rw [hp2.1, hp1.1]
    exact (pump_formula_stable s.waterPumpCycleStartTime i.now _).1

theorem tick_twice_stable_invalid (s : SysState) (i : TickInput)
    (hv : i.sample.temperature = none ∨ i.sample.humidity = none) :
    (tick (tick s i) i).tecState = (tick s i).tecState ∧
    (tick (tick s i) i).waterPumpState = (tick s i).waterPumpState ∧
    (tick (tick s i) i).waterPumpCycleStartTime = (tick s i).waterPumpCycleStartTime := by
  have hb1 := tick_sensorReadings s i
  cases ho : s.sensorReadings.getLast? with
  | none =>
      have hnil : (storeReading (tick s i).sensorReadings i.sample
          i.timestamp).getLast? = none := by
        rw [storeReading_invalid _ _ _ hv, hb1, storeReading_invalid _ _ _ hv, ho]
      exact tick_getLast_none (tick s i) i hnil
  | some d =>
      have h1 : (storeReading s.sensorReadings i.sample i.timestamp).getLast?
          = some d := by
        rw [storeReading_invalid _ _ _ hv, ho]
      have h2 : (storeReading (tick s i).sensorReadings i.sample i.timestamp).getLast?
          = some d := by
        rw [storeReading_invalid _ _ _ hv, hb1, storeReading_invalid _ _ _ hv, ho]
      exact tick_twice_stable_some s i d h1 h2

theorem tick_twice_stable (s : SysState) (i : TickInput) :
    (tick (tick s i) i).tecState = (tick s i).tecState ∧
    (tick (tick s i) i).waterPumpState = (tick s i).waterPumpState ∧
    (tick (tick s i) i).waterPumpCycleStartTime = (tick s i).waterPumpCycleStartTime := by
  by_cases hv : i.sample.temperature = none ∨ i.sample.humidity = none
  · exact tick_twice_stable_invalid s i hv
  · push_neg at hv
    obtain ⟨t, ht⟩ := Option.ne_none_iff_exists'.mp hv.1
    obtain ⟨hm, hh⟩ := Option.ne_none_iff_exists'.mp hv.2
    have h1 := storeReading_getLast_fields s.sensorReadings i.sample i.timestamp
      t hm ht hh
    have h2 := storeReading_getLast_fields (tick s i).sensorReadings i.sample
      i.timestamp t hm ht hh
    exact tick_twice_stable_some s i ⟨t, hm, i.timestamp⟩ h1 h2

/-! ### Claims -/

theorem tick_mutex (s : SysState) (i : TickInput)
    (h : s.coolerIn1 = false ∨ s.coolerIn2 = false) :
    (tick s i).coolerIn1 = false ∨ (tick s i).coolerIn2 = false := by
  unfold tick
  set u := storeSensorData (readThresholds s i.rawTemp i.rawHum) i.sample i.timestamp
    with hu
  cases hg : u.sensorReadings.getLast? with
  | none =>
      rw [control_getLast_none u i.now hg]
      exact h
  | some d =>
      rw [control_getLast_some u i.now d hg, pumpControl_coolerIn1,
        pumpControl_coolerIn2]
      exact thermalControl_mutex u d

theorem foldl_tick_mutex (inputs : List TickInput) (s : SysState)
    (h : s.coolerIn1 = false ∨ s.coolerIn2 = false) :
    (inputs.foldl tick s).coolerIn1 = false ∨
    (inputs.foldl tick s).coolerIn2 = false := by
  induction inputs generalizing s with
  | nil => exact h
  | cons i rest ih => exact ih (tick s i) (tick_mutex s i h)

theorem storeAll_eq_drop (rs : List SensorData) :
    rs.foldl
      (fun buf r => storeReading buf ⟨some r.temperature, some r.humidity⟩ r.timestamp)
      [] = rs.drop (rs.length - 100) := by
  induction rs using List.reverseRecOn with
  | nil => rfl
  | append_singleton M r ih =>
      rw [List.foldl_append, List.foldl_cons, List.foldl_nil, ih]
      by_cases hM : M.length < 100
      · have h0 : M.length - 100 = 0 := by omega
        rw [h0, List.drop_zero]
        simp only [storeReading]
        rw [if_neg (by omega)]
        have h1 : (M ++ [r]).length - 100 = 0 := by
          simp only [List.length_append, List.length_cons, List.length_nil]
          omega
        rw [h1, List.drop_zero]
      · push_neg at hM
        have hlen : (M.drop (M.length - 100)).length = 100 := by
          rw [List.length_drop]
          omega
        simp only [storeReading]
        rw [if_pos (le_of_eq hlen.symm), List.tail_drop]
        rw [List.drop_append_of_le_length
          (by simp only [List.length_append, List.length_cons, List.length_nil]; omega)]
        have h2 : (M ++ [r]).length - 100 = M.length - 100 + 1 := by
          simp only [List.length_append, List.length_cons, List.length_nil]
          omega
        rw [h2]

/-- C1: with a non-empty history whose latest accepted reading has
temperature `t`, threshold `T` and hysteresis `H = 1`: `t > T + H/2`
gives state `Cooling` with the cooling direction and the fan asserted;
`t < T - H/2` gives `Heating` with the heating direction and the fan
asserted; otherwise (both dead-band edges inclusive) `Inactive` with
both directions and the fan off. -/
theorem C1_thermal_hysteresis (s : SysState) (n : ℕ) (d : SensorData)
    (h : s.sensorReadings.getLast? = some d) :
    (d.temperature > (s.temperatureThreshold : ℚ) + HYSTERESIS / 2 →
      (controlCoolerAndWaterPump s n).tecState = TecState.Cooling ∧
      (controlCoolerAndWaterPump s n).coolerIn1 = true ∧
      (controlCoolerAndWaterPump s n).coolerIn2 = false ∧
      (controlCoolerAndWaterPump s n).fanIn1 = true ∧
      (controlCoolerAndWaterPump s n).fanIn2 = false) ∧
    (d.temperature < (s.temperatureThreshold : ℚ) - HYSTERESIS / 2 →
      (controlCoolerAndWaterPump s n).tecState = TecState.Heating ∧
      (controlCoolerAndWaterPump s n).coolerIn1 = false ∧
      (controlCoolerAndWaterPump s n).coolerIn2 = true ∧
      (controlCoolerAndWaterPump s n).fanIn1 = true ∧
      (controlCoolerAndWaterPump s n).fanIn2 = false) ∧
    ((s.temperatureThreshold : ℚ) - HYSTERESIS / 2 ≤ d.temperature →
      d.temperature ≤ (s.temperatureThreshold : ℚ) + HYSTERESIS / 2 →
      (controlCoolerAndWaterPump s n).tecState = TecState.Inactive ∧
      (controlCoolerAndWaterPump s n).coolerIn1 = false ∧
      (controlCoolerAndWaterPump s n).coolerIn2 = false ∧
      (controlCoolerAndWaterPump s n).fanIn1 = false ∧
      (controlCoolerAndWaterPump s n).fanIn2 = false) := by
  have hctl : controlCoolerAndWaterPump s n = pumpControl (thermalControl s d) d n := by
    unfold controlCoolerAndWaterPump
    rw [h]
  refine ⟨fun hc => ?_, fun hh => ?_, fun h1 h2 => ?_⟩
  · rw [hctl, thermalControl_cooling s d hc]
    simp [pumpControl_tecState, pumpControl_coolerIn1, pumpControl_coolerIn2,
      pumpControl_fanIn1, pumpControl_fanIn2]
  · have hnc : ¬ d.temperature > (s.temperatureThreshold : ℚ) + HYSTERESIS / 2 := by
      simp only [HYSTERESIS] at hh ⊢
      push_neg
      linarith
    rw [hctl, thermalControl_heating s d hnc hh]
    simp [pumpControl_tecState, pumpControl_coolerIn1, pumpControl_coolerIn2,
      pumpControl_fanIn1, pumpControl_fanIn2]
  · have hnc : ¬ d.temperature > (s.temperatureThreshold : ℚ) + HYSTERESIS / 2 :=
      not_lt.mpr h2
    have hnh : ¬ d.temperature < (s.temperatureThreshold : ℚ) - HYSTERESIS / 2 :=
      not_lt.mpr h1
    rw [hctl, thermalControl_inactive s d hnc hnh]
    simp [pumpControl_tecState, pumpControl_coolerIn1, pumpControl_coolerIn2,
      pumpControl_fanIn1, pumpControl_fanIn2]

/-- Witness for C1 at threshold `T = 24`: `t = 26` cools with the fan on,
`t = 22` heats with the fan on, and the boundary points `t = 24.5` and
`t = 23.5` are inactive with everything off. -/
theorem C1_thermal_hysteresis_witness :
    (controlCoolerAndWaterPump (sampleState 26 50 24 50) 0).tecState = TecState.Cooling ∧
    (controlCoolerAndWaterPump (sampleState 26 50 24 50) 0).fanIn1 = true ∧
    (controlCoolerAndWaterPump (sampleState 22 50 24 50) 0).tecState = TecState.Heating ∧
    (controlCoolerAndWaterPump (sampleState 24.5 50 24 50) 0).tecState = TecState.Inactive ∧
    (controlCoolerAndWaterPump (sampleState 23.5 50 24 50) 0).coolerIn1 = false := by
  refine ⟨?_, ?_, ?_, ?_, ?_⟩
  · exact ((C1_thermal_hysteresis (sampleState 26 50 24 50) 0 ⟨26, 50, 0⟩ rfl).1
      (by norm_num [sampleState, initialState, HYSTERESIS])).1
  · exact ((C1_thermal_hysteresis (sampleState 26 50 24 50) 0 ⟨26, 50, 0⟩ rfl).1
      (by norm_num [sampleState, initialState, HYSTERESIS])).2.2.2.1
  · exact ((C1_thermal_hysteresis (sampleState 22 50 24 50) 0 ⟨22, 50, 0⟩ rfl).2.1
      (by norm_num [sampleState, initialState, HYSTERESIS])).1
  · exact ((C1_thermal_hysteresis (sampleState 24.5 50 24 50) 0 ⟨24.5, 50, 0⟩ rfl).2.2
      (by norm_num [sampleState, initialState, HYSTERESIS])
      (by norm_num [sampleState, initialState, HYSTERESIS])).1
  · exact ((C1_thermal_hysteresis (sampleState 23.5 50 24 50) 0 ⟨23.5, 50, 0⟩ rfl).2.2
      (by norm_num [sampleState, initialState, HYSTERESIS])
      (by norm_num [sampleState, initialState, HYSTERESIS])).2.1

/-- C2: starting from the initial state, over every sequence of tick
inputs (arbitrary temperatures, humidities, raw samples and times) the
two thermoelectric-direction outputs COOLER_IN1 and COOLER_IN2 are
never both asserted. -/
theorem C2_cooler_direction_mutex (inputs : List TickInput) :
    (run inputs).coolerIn1 = false ∨ (run inputs).coolerIn2 = false :=
  foldl_tick_mutex inputs initialState (Or.inl rfl)

/-- C5: the history buffer never exceeds 100 entries over any run, and
folding any sequence of valid readings into the empty buffer leaves
exactly the last 100 of them in insertion order (strict FIFO eviction
of the oldest); in particular after 101 valid readings the buffer is
the input sequence minus its first element. -/
theorem C5_bounded_fifo :
    (∀ inputs : List TickInput, (run inputs).sensorReadings.length ≤ 100) ∧
    (∀ rs : List SensorData,
      rs.foldl
        (fun buf r =>
          storeReading buf ⟨some r.temperature, some r.humidity⟩ r.timestamp)
        [] = rs.drop (rs.length - 100)) := by
  constructor
  · intro inputs
    have haux : ∀ (l : List TickInput) (s : SysState),
        s.sensorReadings.length ≤ 100 →
        (l.foldl tick s).sensorReadings.length ≤ 100 := by
      intro l
      induction l with
      | nil => intro s h; exact h
      | cons i rest ih =>
          intro s h
          refine ih (tick s i) ?_
          rw [tick_sensorReadings]
          exact storeReading_length_le _ _ _ h
    exact haux inputs initialState (by simp [initialState])
  · exact storeAll_eq_drop

/-- C3: while the latest accepted humidity is strictly below the
threshold, the evaluation keeps `cycleStartTime` unless a full
22000 ms cycle has elapsed (then it resets to the current time), and
the pump mode is `On` exactly when the time elapsed since the
(possibly reset) `cycleStartTime` is below the 2000 ms on-duration,
with the pump pins driven to match. -/
theorem C3_pump_duty_cycle (s : SysState) (n : ℕ) (d : SensorData)
    (h : s.sensorReadings.getLast? = some d)
    (hd : d.humidity < (s.humidityThreshold : ℚ))
    (hstart : s.waterPumpCycleStartTime ≤ n) (hn : n < 2 ^ 32) :
    ((waterPumpCyclePeriod ≤ n - s.waterPumpCycleStartTime →
        (controlCoolerAndWaterPump s n).waterPumpCycleStartTime = n) ∧
     (n - s.waterPumpCycleStartTime < waterPumpCyclePeriod →
        (controlCoolerAndWaterPump s n).waterPumpCycleStartTime
          = s.waterPumpCycleStartTime)) ∧
    ((controlCoolerAndWaterPump s n).waterPumpState = PumpMode.On ↔
        n - (controlCoolerAndWaterPump s n).waterPumpCycleStartTime
          < waterPumpOnDuration) ∧
    ((controlCoolerAndWaterPump s n).pumpIn1 = true ↔
        (controlCoolerAndWaterPump s n).waterPumpState = PumpMode.On) ∧
    (controlCoolerAndWaterPump s n).pumpIn2 = false := by
  have hframe := thermalControl_pump_frame s d
  have hd2 : d.humidity < ((thermalControl s d).humidityThreshold : ℚ) := by
    rw [hframe.2.2.2.2.2.1]
    exact hd
  rw [control_getLast_some s n d h, pumpControl_deficit _ d n hd2, hframe.2.1,
    usub32_eq_sub hstart hn]
  split_ifs with hc hc2
  · dsimp only
    refine ⟨⟨fun _ => rfl, fun hlt => by omega⟩, ?_, by simp, rfl⟩
    constructor
    · intro _
      simp [waterPumpOnDuration]
    · intro _
      rfl
  · dsimp only
    refine ⟨⟨fun hge => by omega, fun _ => rfl⟩, ?_, by simp, rfl⟩
    exact ⟨fun _ => hc2, fun _ => rfl⟩
  · dsimp only
    refine ⟨⟨fun hge => by omega, fun _ => rfl⟩, ?_, by simp, rfl⟩
    constructor
    · intro hmode
      exact absurd hmode (by simp)
    · intro hlt
      exact absurd hlt hc2

/-- Witness for C3: one accepted reading with humidity 40 below the
threshold 50, cycle anchored at 0, evaluated at time 0: the pump is On
and the anchor is unchanged. -/
theorem C3_pump_duty_cycle_witness :
    (controlCoolerAndWaterPump (sampleState 24 40 24 50) 0).waterPumpState
      = PumpMode.On ∧
    (controlCoolerAndWaterPump (sampleState 24 40 24 50) 0).waterPumpCycleStartTime
      = 0 := by
  have H := C3_pump_duty_cycle (sampleState 24 40 24 50) 0 ⟨24, 40, 0⟩ rfl
    (by norm_num [sampleState, initialState]) (by norm_num [sampleState, initialState])
    (by norm_num)
  have h0 : (controlCoolerAndWaterPump (sampleState 24 40 24 50) 0).waterPumpCycleStartTime
      = 0 := H.1.2 (by norm_num [sampleState, initialState, waterPumpCyclePeriod,
        waterPumpOnDuration, waterPumpOffDuration])
  refine ⟨H.2.1.mpr ?_, h0⟩
  rw [h0]
  norm_num [waterPumpOnDuration]

/-- C4: when the latest accepted humidity reaches or exceeds the
threshold, the evaluation forces the pump mode to `Off`, deasserts both
pump pins, and resets `cycleStartTime` to the current time — regardless
of the previous pump mode or cycle position. -/
theorem C4_humidity_satisfied_forces_off (s : SysState) (n : ℕ) (d : SensorData)
    (h : s.sensorReadings.getLast? = some d)
    (hd : (s.humidityThreshold : ℚ) ≤ d.humidity) :
    (controlCoolerAndWaterPump s n).waterPumpState = PumpMode.Off ∧
    (controlCoolerAndWaterPump s n).pumpIn1 = false ∧
    (controlCoolerAndWaterPump s n).pumpIn2 = false ∧
    (controlCoolerAndWaterPump s n).waterPumpCycleStartTime = n := by
  have hd2 : ¬ d.humidity < ((thermalControl s d).humidityThreshold : ℚ) := by
    rw [(thermalControl_pump_frame s d).2.2.2.2.2.1]
    exact not_lt.mpr hd
  rw [control_getLast_some s n d h, pumpControl_satisfied _ d n hd2]
  exact ⟨rfl, rfl, rfl, rfl⟩

/-- Witness for C4: humidity 60 at threshold 50, previously-On pump
state, evaluated at time 9: forced Off with the anchor reset to 9. -/
theorem C4_humidity_satisfied_forces_off_witness :
    (controlCoolerAndWaterPump
        { sampleState 24 60 24 50 with waterPumpState := PumpMode.On } 9).waterPumpState
      = PumpMode.Off ∧
    (controlCoolerAndWaterPump
        { sampleState 24 60 24 50 with waterPumpState := PumpMode.On } 9).waterPumpCycleStartTime
      = 9 := by
  have H := C4_humidity_satisfied_forces_off
    { sampleState 24 60 24 50 with waterPumpState := PumpMode.On } 9 ⟨24, 60, 0⟩ rfl
    (by norm_num [sampleState, initialState])
  exact ⟨H.1, H.2.2.2⟩

/-- C6: a candidate DHT sample with a NaN temperature or a NaN humidity
is rejected silently: `storeSensorData` leaves the whole state — in
particular the history length and the latest reading — unchanged. -/
theorem C6_nan_rejected_silently (s : SysState) (sample : DhtSample) (ts : ℕ)
    (h : sample.temperature = none ∨ sample.humidity = none) :
    storeSensorData s sample ts = s ∧
    (storeReading s.sensorReadings sample ts).length = s.sensorReadings.length ∧
    (storeReading s.sensorReadings sample ts).getLast? = s.sensorReadings.getLast? := by
  have hs := storeSensorData_invalid s sample ts h
  have hb : storeReading s.sensorReadings sample ts = s.sensorReadings := by
    have := congrArg SysState.sensorReadings hs
    simpa [storeSensorData] using this
  exact ⟨hs, by rw [hb], by rw [hb]⟩

/-- Witness for C6: a NaN-temperature sample at the initial state. -/
theorem C6_nan_rejected_silently_witness :
    storeSensorData initialState ⟨none, some 50⟩ 5 = initialState :=
  (C6_nan_rejected_silently initialState ⟨none, some 50⟩ 5 (Or.inl rfl)).1

/-- C7 counterexample: the claim says the mapper produces
round(r / 4095 × 100), but Arduino `map` truncates: at raw input 21 the
code yields 21 × 100 / 4095 = 0 while rounding to nearest yields 1. -/
theorem C7_round_counterexample :
    (readThresholds initialState 21 21).temperatureThreshold = 0 ∧
    specRoundedThreshold 21 = 1 ∧
    (readThresholds initialState 21 21).temperatureThreshold
      ≠ specRoundedThreshold 21 := by
  refine ⟨rfl, rfl, ?_⟩
  decide

/-- C7 (amended): the threshold mapper produces ⌊r × 100 / 4095⌋
(truncating integer division); the result is in [0, 100] for
r ∈ [0, 4095], the map is monotone non-decreasing, raw 0 maps to 0 and
raw 4095 maps to 100. -/
theorem C7_threshold_map_floor (r r2 : ℕ) (s : SysState) :
    (readThresholds s r r2).temperatureThreshold = arduinoMap r 0 4095 0 100 ∧
    (readThresholds s r r2).humidityThreshold = arduinoMap r2 0 4095 0 100 ∧
    arduinoMap r 0 4095 0 100 = r * 100 / 4095 ∧
    (r ≤ 4095 → arduinoMap r 0 4095 0 100 ≤ 100) ∧
    (r ≤ r2 → arduinoMap r 0 4095 0 100 ≤ arduinoMap r2 0 4095 0 100) ∧
    arduinoMap 0 0 4095 0 100 = 0 ∧
    arduinoMap 4095 0 4095 0 100 = 100 := by
  refine ⟨rfl, rfl, by simp [arduinoMap], ?_, ?_, by decide, by decide⟩
  · intro hr
    simp only [arduinoMap, Nat.sub_zero, Nat.add_zero]
    calc r * 100 / 4095 ≤ 4095 * 100 / 4095 :=
          Nat.div_le_div_right (Nat.mul_le_mul_right 100 hr)
    _ = 100 := by norm_num
  · intro hr
    simp only [arduinoMap, Nat.sub_zero, Nat.add_zero]
    exact Nat.div_le_div_right (Nat.mul_le_mul_right 100 hr)

/-- Witness for C7 (amended) at raw inputs 21 and 4095. -/
theorem C7_threshold_map_floor_witness :
    arduinoMap 21 0 4095 0 100 ≤ 100 ∧
    arduinoMap 21 0 4095 0 100 ≤ arduinoMap 4095 0 4095 0 100 :=
  ⟨(C7_threshold_map_floor 21 4095 initialState).2.2.2.1 (by norm_num),
   (C7_threshold_map_floor 21 4095 initialState).2.2.2.2.1 (by norm_num)⟩

/-- C8 counterexample: starting from a state reached after one accepted
reading, a second tick with exactly the same inputs (same raw samples,
same accepted reading, same times) grows the history from 1 to 2
entries, so "history length is stable across repeated identical ticks"
fails as stated whenever the buffer is below capacity. -/
theorem C8_idempotence_counterexample :
    (tick initialState ⟨1000, 2000, ⟨some 30, some 40⟩, 5, 0⟩).sensorReadings.length
      = 1 ∧
    (tick (tick initialState ⟨1000, 2000, ⟨some 30, some 40⟩, 5, 0⟩)
        ⟨1000, 2000, ⟨some 30, some 40⟩, 5, 0⟩).sensorReadings.length = 2 ∧
    (tick (tick initialState ⟨1000, 2000, ⟨some 30, some 40⟩, 5, 0⟩)
        ⟨1000, 2000, ⟨some 30, some 40⟩, 5, 0⟩).sensorReadings.length
      ≠ (tick initialState ⟨1000, 2000, ⟨some 30, some 40⟩, 5, 0⟩).sensorReadings.length := by
  simp only [tick_sensorReadings]
  refine ⟨rfl, rfl, by decide⟩

/-- C8 (amended): across repeated ticks with identical inputs (same raw
analog samples, same candidate reading, same time values) the thermal
state and the pump state (mode and cycle anchor) are stable from the
first repetition on; the history length is additionally stable exactly
in the cases the counterexample leaves open — when the candidate is
rejected (NaN) or the buffer is already at capacity 100 — while an
accepted reading below capacity grows the history by one per tick. -/
theorem C8_idempotence_amended (s : SysState) (i : TickInput) :
    (tick (tick s i) i).tecState = (tick s i).tecState ∧
    (tick (tick s i) i).waterPumpState = (tick s i).waterPumpState ∧
    (tick (tick s i) i).waterPumpCycleStartTime = (tick s i).waterPumpCycleStartTime ∧
    ((i.sample.temperature = none ∨ i.sample.humidity = none ∨
        100 ≤ s.sensorReadings.length) →
      (tick (tick s i) i).sensorReadings.length = (tick s i).sensorReadings.length) := by
  refine ⟨(tick_twice_stable s i).1, (tick_twice_stable s i).2.1,
    (tick_twice_stable s i).2.2, fun hlen => ?_⟩
  rw [tick_sensorReadings (tick s i) i]
  rcases hlen with hv | hv | hfull
  · rw [storeReading_invalid _ _ _ (Or.inl hv)]
  · rw [storeReading_invalid _ _ _ (Or.inr hv)]
  · by_cases hv : i.sample.temperature = none ∨ i.sample.humidity = none
    · rw [storeReading_invalid _ _ _ hv]
    · push_neg at hv
      obtain ⟨t, ht⟩ := Option.ne_none_iff_exists'.mp hv.1
      obtain ⟨hm, hh⟩ := Option.ne_none_iff_exists'.mp hv.2
      have hfull1 : 100 ≤ (tick s i).sensorReadings.length := by
        rw [tick_sensorReadings s i,
          storeReading_length_full_fields s.sensorReadings i.sample i.timestamp
            t hm ht hh hfull]
        exact hfull
      exact storeReading_length_full_fields (tick s i).sensorReadings i.sample
        i.timestamp t hm ht hh hfull1

/-- Witness for C8 (amended): a repeated NaN tick keeps thermal state
and history length unchanged. -/
theorem C8_idempotence_amended_witness :
    (tick (tick initialState ⟨0, 0, ⟨none, none⟩, 0, 0⟩)
        ⟨0, 0, ⟨none, none⟩, 0, 0⟩).tecState
      = (tick initialState ⟨0, 0, ⟨none, none⟩, 0, 0⟩).tecState ∧
    (tick (tick initialState ⟨0, 0, ⟨none, none⟩, 0, 0⟩)
        ⟨0, 0, ⟨none, none⟩, 0, 0⟩).sensorReadings.length
      = (tick initialState ⟨0, 0, ⟨none, none⟩, 0, 0⟩).sensorReadings.length :=
  ⟨(C8_idempotence_amended initialState ⟨0, 0, ⟨none, none⟩, 0, 0⟩).1,
   (C8_idempotence_amended initialState ⟨0, 0, ⟨none, none⟩, 0, 0⟩).2.2.2
     (Or.inl rfl)⟩

/-- C9: with no accepted reading in the history,
`controlCoolerAndWaterPump` returns the state unchanged — no direction
or fan output is written and the thermal state is untouched. -/
theorem C9_empty_history_no_actuation (s : SysState) (n : ℕ)
    (h : s.sensorReadings = []) :
    controlCoolerAndWaterPump s n = s :=
  control_empty s n h

/-- Witness for C9 at the initial (empty-history) state. -/
theorem C9_empty_history_no_actuation_witness :
    initialState.sensorReadings = [] ∧
    controlCoolerAndWaterPump initialState 0 = initialState :=
  ⟨rfl, C9_empty_history_no_actuation initialState 0 rfl⟩

/-- C10: with an empty history the humidification logic is skipped —
pump mode, pump pins and `waterPumpCycleStartTime` are unchanged; the
initial pump mode is `Off`; and over any run whose samples are all
rejected (NaN), the pump mode stays `Off` with the pump pins low and
the cycle anchor still 0. -/
theorem C10_pump_skipped_empty_history :
    (∀ (s : SysState) (n : ℕ), s.sensorReadings = [] →
      (controlCoolerAndWaterPump s n).waterPumpState = s.waterPumpState ∧
      (controlCoolerAndWaterPump s n).pumpIn1 = s.pumpIn1 ∧
      (controlCoolerAndWaterPump s n).pumpIn2 = s.pumpIn2 ∧
      (controlCoolerAndWaterPump s n).waterPumpCycleStartTime
        = s.waterPumpCycleStartTime) ∧
    initialState.waterPumpState = PumpMode.Off ∧
    (∀ inputs : List TickInput,
      (∀ i ∈ inputs, i.sample.temperature = none ∨ i.sample.humidity = none) →
      (run inputs).waterPumpState = PumpMode.Off ∧
      (run inputs).pumpIn1 = false ∧
      (run inputs).pumpIn2 = false ∧
      (run inputs).waterPumpCycleStartTime = 0) := by
  refine ⟨fun s n hs => ?_, rfl, fun inputs hinv => ?_⟩
  · rw [control_empty s n hs]
    exact ⟨rfl, rfl, rfl, rfl⟩
  · have := foldl_tick_all_invalid inputs initialState hinv rfl
    exact ⟨this.2.1, this.2.2.1, this.2.2.2.1, this.2.2.2.2⟩

/-- Witness for C10: the empty-history frame part at the initial state,
and a run of one NaN tick keeping the pump off. -/
theorem C10_pump_skipped_empty_history_witness :
    (controlCoolerAndWaterPump initialState 7).waterPumpState
      = initialState.waterPumpState ∧
    (run [⟨0, 0, ⟨none, none⟩, 0, 5⟩]).waterPumpState = PumpMode.Off :=
  ⟨(C10_pump_skipped_empty_history.1 initialState 7 rfl).1,
   (C10_pump_skipped_empty_history.2.2 [⟨0, 0, ⟨none, none⟩, 0, 5⟩]
     (by intro i hi; simp at hi; subst hi; exact Or.inl rfl)).1⟩

end FlowerStorage
